import Mathlib

/-!
Verification of the cryptoSQLite key/page crypto engine (`src/crypto/Crypto.cpp`)
and the VFS forwarding shim (`src/vfs/VFS.h`).

The engine is shallow-embedded: byte buffers (the SecureMemory `Buffer` class)
are `List Nat`, the filesystem is an association list from path to file bytes,
and each `Crypto` method is a state transformer.  The external cipher
(`IDataCrypt`) is an external collaborator of the repository and is modelled as
a record of abstract operations `generateKey / wrapKey / unwrapKey / encrypt /
decrypt / extraSize`; theorems that need the cipher capability contract
(`unwrap (wrap k w) w = k`, unwrap under a wrong key fails) take it as a
hypothesis, and a small concrete cipher `toyCrypt` satisfying the contract is
used for witnesses.
-/

namespace CryptoSQLite

/-- `Buffer::write(data, len, 0)`: overwrite the buffer from offset 0 with the
given bytes; the buffer grows if needed and any old bytes past the written
region survive. -/
def listWrite0 (newData old : List Nat) : List Nat :=
  newData ++ old.drop newData.length

/-- The filesystem: an association of file path to file contents (bytes). -/
def Disk := List (String × List Nat)

/-- `fopen(name, "wb")` + `fwrite` + `fclose`: create or truncate the file at
`name` and replace its contents. -/
def diskStore (d : Disk) (name : String) (content : List Nat) : Disk :=
  (name, content) :: d.filter (fun p => p.1 != name)

/-- `fopen(name, "rb")`: the contents of the file at `name`, if present. -/
def diskLookup (d : Disk) (name : String) : Option (List Nat) :=
  (d.find? (fun p => p.1 == name)).map (fun p => p.2)

/-- `fwrite(&n, sizeof(uint32_t), 1, file)`: a 32-bit little-endian word as
four bytes. -/
def u32le (n : Nat) : List Nat :=
  [n % 256, n / 256 % 256, n / 65536 % 256, n / 16777216 % 256]

/-- `fread(&n, sizeof(uint32_t), 1, file)`: decode four little-endian bytes. -/
def u32dec (bs : List Nat) : Nat :=
  bs.getD 0 0 + 256 * bs.getD 1 0 + 65536 * bs.getD 2 0 + 16777216 * bs.getD 3 0

/-- The external cipher capability (`IDataCrypt`), out of the repository's
scope.  `generated` is the data key produced by `generateKey`; `wrap key
wrappingKey` and `unwrap wrapped wrappingKey` are key (un)wrapping, with
`unwrap` failing (`none`) when its integrity check fails; `encrypt pageNo
input key` / `decrypt pageNo input key` are the page transforms, `decrypt`
failing (`none`) when authentication fails. -/
structure DataCrypt where
  generated : List Nat
  wrap : List Nat → List Nat → List Nat
  unwrap : List Nat → List Nat → Option (List Nat)
  encrypt : Int → List Nat → List Nat → List Nat
  decrypt : Int → List Nat → List Nat → Option (List Nat)
  extra : Nat

/-- The member fields of class `Crypto`. -/
structure Crypto where
  mDataCrypt : DataCrypt
  mFileName : String
  mKey : List Nat
  mWrappedKey : List Nat
  mFirstPage : List Nat
  mPageBufferIn : List Nat
  mPageBufferOut : List Nat

/-- `Crypto::wrapKey(fileKey, keylen)`: build the wrapping key from the caller
bytes, clear `mWrappedKey` and wrap `mKey` under it.  The caller pointer and
length are modelled jointly as the byte list `fileKey`. -/
def Crypto.wrapKey (st : Crypto) (fileKey : List Nat) : Crypto :=
  { st with mWrappedKey := st.mDataCrypt.wrap st.mKey fileKey }

/-- `Crypto::unwrapKey(fileKey, keylen)`: clear `mKey` and unwrap
`mWrappedKey` under the caller key; on integrity failure the cipher throws and
`mKey` stays cleared. -/
def Crypto.unwrapKey (st : Crypto) (fileKey : List Nat) :
    Except String Unit × Crypto :=
  match st.mDataCrypt.unwrap st.mWrappedKey fileKey with
  | some k => (Except.ok (), { st with mKey := k })
  | none => (Except.error "unwrap authentication failure", { st with mKey := [] })

/-- The bytes `Crypto::writeKeyFile` produces: `uint32 wrappedKeySize |
wrappedKey`, then `uint32 firstPageSize | firstPage` — the whole second
section, size word included, only when `mFirstPage.size() > 0`. -/
def serializeKeyFile (wrappedKey firstPage : List Nat) : List Nat :=
  u32le wrappedKey.length ++ wrappedKey ++
    (if firstPage.length > 0 then u32le firstPage.length ++ firstPage else [])

/-- `Crypto::writeKeyFile()`: open `mFileName` for writing and store the
serialized wrapped key and first-page cache; no member is assigned. -/
def Crypto.writeKeyFile (st : Crypto) (d : Disk) : Crypto × Disk :=
  (st, diskStore d st.mFileName (serializeKeyFile st.mWrappedKey st.mFirstPage))

/-- `Crypto::readKeyFile()`: open `mFileName`, read the key size word, the
wrapped key, then unconditionally the page size word, then the first page when
that size is positive.  Each short read throws with the message of the source;
members assigned before a throw keep their new values. -/
def Crypto.readKeyFile (st : Crypto) (d : Disk) : Except String Unit × Crypto :=
  match diskLookup d st.mFileName with
  | none => (Except.error "Failed to open keyfile", st)
  | some bytes =>
    if bytes.length < 4 then (Except.error "Failed to read key size", st)
    else
      let keySize := u32dec (bytes.take 4)
      let rest := bytes.drop 4
      if rest.length < keySize then (Except.error "Failed to read key data", st)
      else
        let st1 := { st with mWrappedKey := rest.take keySize }
        let rest2 := rest.drop keySize
        if rest2.length < 4 then (Except.error "Failed to read page size", st1)
        else
          let pageSize := u32dec (rest2.take 4)
          let rest3 := rest2.drop 4
          if pageSize > 0 then
            if rest3.length < pageSize then
              (Except.error "Failed to read page data", st1)
            else (Except.ok (), { st1 with mFirstPage := rest3.take pageSize })
          else (Except.ok (), st1)

/-- `Crypto::rekey(newFileKey, keylen)`: re-wrap the existing `mKey` under the
new caller key, then rewrite the keyfile. -/
def Crypto.rekey (st : Crypto) (newFileKey : List Nat) (d : Disk) :
    Crypto × Disk :=
  Crypto.writeKeyFile (Crypto.wrapKey st newFileKey) d

/-- `Crypto::encryptPage(page, pageSize, pageNo)`: copy `pageSize` plaintext
bytes into `mPageBufferIn`, encrypt into `mPageBufferOut`, and for page 1 also
cache the ciphertext in `mFirstPage` and rewrite the keyfile; returns the
bytes of `pageBufferOut()`. -/
def Crypto.encryptPage (st : Crypto) (page : List Nat) (pageSize : Nat)
    (pageNo : Int) (d : Disk) : List Nat × Crypto × Disk :=
  let st1 := { st with mPageBufferIn := listWrite0 (page.take pageSize) st.mPageBufferIn }
  let st2 := { st1 with
    mPageBufferOut := st1.mDataCrypt.encrypt pageNo st1.mPageBufferIn st1.mKey }
  if pageNo = 1 then
    let st3 := { st2 with mFirstPage := st2.mPageBufferOut }
    let wr := Crypto.writeKeyFile st3 d
    (wr.1.mPageBufferOut, wr.1, wr.2)
  else (st2.mPageBufferOut, st2, d)

/-- `Crypto::decryptPage(pageInOut, pageSize, pageNo)`: when `pageInOut` is
non-null copy its `pageSize` bytes into `mPageBufferIn`; decrypt into
`mPageBufferOut`; on success and a non-null `pageInOut`, overwrite its first
`pageSize` bytes with the plaintext.  The cipher throws on authentication
failure, before any copy back into the caller buffer.  The middle component of
the result is the caller buffer after the call. -/
def Crypto.decryptPage (st : Crypto) (pageInOut : Option (List Nat))
    (pageSize : Nat) (pageNo : Int) :
    Except String Unit × Option (List Nat) × Crypto :=
  let st1 := match pageInOut with
    | some b => { st with mPageBufferIn := listWrite0 (b.take pageSize) st.mPageBufferIn }
    | none => st
  match st1.mDataCrypt.decrypt pageNo st1.mPageBufferIn st1.mKey with
  | none => (Except.error "decrypt authentication failure", pageInOut, st1)
  | some pt =>
    let st2 := { st1 with mPageBufferOut := pt }
    match pageInOut with
    | some b => (Except.ok (), some (pt.take pageSize ++ b.drop pageSize), st2)
    | none => (Except.ok (), none, st2)

/-- `Crypto::resizePageBuffers(size)`: clear both page buffers and zero-pad
them to exactly `size` bytes. -/
def Crypto.resizePageBuffers (st : Crypto) (size : Nat) : Crypto :=
  { st with
    mPageBufferIn := List.replicate size 0
    mPageBufferOut := List.replicate size 0 }

/-- `Crypto::decryptFirstPageCache()`: resize both buffers to
`max(mFirstPage.size(), 512u)`, then decrypt the cache into `mPageBufferOut`
when the cache is non-empty, else leave the zero bytes. -/
def Crypto.decryptFirstPageCache (st : Crypto) : Except String Unit × Crypto :=
  let st1 := Crypto.resizePageBuffers st (max st.mFirstPage.length 512)
  if st1.mFirstPage.length > 0 then
    match st1.mDataCrypt.decrypt 1 st1.mFirstPage st1.mKey with
    | some pt => (Except.ok (), { st1 with mPageBufferOut := pt })
    | none => (Except.error "decrypt authentication failure", st1)
  else (Except.ok (), st1)

/-- `Crypto::Crypto(dbFileName, fileKey, keylen, exists)`: set `mFileName` to
`dbFileName + "-keyfile"`, make the cipher; when `dbExists` is false generate
a fresh data key and wrap it, otherwise read the keyfile and unwrap the
persisted key. -/
def Crypto.construct (c : DataCrypt) (dbFileName : String) (fileKey : List Nat)
    (dbExists : Bool) (d : Disk) : Except String Crypto × Disk :=
  let st0 : Crypto :=
    { mDataCrypt := c
      mFileName := dbFileName ++ "-keyfile"
      mKey := []
      mWrappedKey := []
      mFirstPage := []
      mPageBufferIn := []
      mPageBufferOut := [] }
  if dbExists then
    match Crypto.readKeyFile st0 d with
    | (Except.error e, _) => (Except.error e, d)
    | (Except.ok _, st1) =>
      match Crypto.unwrapKey st1 fileKey with
      | (Except.ok _, st2) => (Except.ok st2, d)
      | (Except.error e, _) => (Except.error e, d)
  else
    (Except.ok (Crypto.wrapKey { st0 with mKey := c.generated } fileKey), d)

/-- `Crypto::extraSize()`. -/
def Crypto.extraSize (st : Crypto) : Nat :=
  st.mDataCrypt.extra

/-!
The VFS shim of `src/vfs/VFS.h`.  The underlying `sqlite3_vfs` method table is
abstract: every method is a function of its arguments and a world `W` that
stands for whatever effect the underlying VFS has; out-parameters are modelled
as result components, pointers (dynamic-library handles, function pointers,
`sqlite3_syscall_ptr`) as opaque `Int` handles, and the C `double` of
`xCurrentTime` as an opaque `Int`-coded value. -/

/-- The underlying VFS (`sqlite3_vfs`) method table, minus `xOpen`, which the
shim does not forward. -/
structure Sqlite3Vfs (W : Type) where
  xDelete : String → Int → W → Int × W
  xAccess : String → Int → W → (Int × Int) × W
  xFullPathname : String → Int → W → (Int × String) × W
  xDlOpen : String → W → Int × W
  xDlError : Int → String → W → W
  xDlSym : Int → String → W → Int × W
  xDlClose : Int → W → W
  xRandomness : Int → W → (Int × List Nat) × W
  xSleep : Int → W → Int × W
  xCurrentTime : W → (Int × Int) × W
  xGetLastError : Int → W → (Int × String) × W
  xCurrentTimeInt64 : W → (Int × Int) × W
  xSetSystemCall : String → Int → W → Int × W
  xGetSystemCall : String → W → Int × W
  xNextSystemCall : String → W → Option String × W

/-- The `VFS` shim object, as far as the forwarding entries use it: they only
reach `mUnderlying` (the `VFS_REAL` macro). -/
structure VFS (W : Type) where
  mUnderlying : Sqlite3Vfs W

/-- `sVfsDelete`. -/
def sVfsDelete {W : Type} (p : VFS W) (zName : String) (syncDir : Int)
    (w : W) : Int × W :=
  p.mUnderlying.xDelete zName syncDir w

/-- `sVfsAccess`. -/
def sVfsAccess {W : Type} (p : VFS W) (zName : String) (flags : Int)
    (w : W) : (Int × Int) × W :=
  p.mUnderlying.xAccess zName flags w

/-- `sVfsFullPathname`. -/
def sVfsFullPathname {W : Type} (p : VFS W) (zName : String) (nOut : Int)
    (w : W) : (Int × String) × W :=
  p.mUnderlying.xFullPathname zName nOut w

/-- `sVfsDlOpen`. -/
def sVfsDlOpen {W : Type} (p : VFS W) (zFilename : String) (w : W) :
    Int × W :=
  p.mUnderlying.xDlOpen zFilename w

/-- `sVfsDlError`. -/
def sVfsDlError {W : Type} (p : VFS W) (nByte : Int) (zErrMsg : String)
    (w : W) : W :=
  p.mUnderlying.xDlError nByte zErrMsg w

/-- `sVfsDlSym`. -/
def sVfsDlSym {W : Type} (p : VFS W) (handle : Int) (zSymbol : String)
    (w : W) : Int × W :=
  p.mUnderlying.xDlSym handle zSymbol w

/-- `sVfsDlClose`. -/
def sVfsDlClose {W : Type} (p : VFS W) (handle : Int) (w : W) : W :=
  p.mUnderlying.xDlClose handle w

/-- `sVfsRandomness`. -/
def sVfsRandomness {W : Type} (p : VFS W) (nByte : Int) (w : W) :
    (Int × List Nat) × W :=
  p.mUnderlying.xRandomness nByte w

/-- `sVfsSleep`. -/
def sVfsSleep {W : Type} (p : VFS W) (microseconds : Int) (w : W) :
    Int × W :=
  p.mUnderlying.xSleep microseconds w

/-- `sVfsCurrentTime`. -/
def sVfsCurrentTime {W : Type} (p : VFS W) (w : W) : (Int × Int) × W :=
  p.mUnderlying.xCurrentTime w

/-- `sVfsGetLastError`. -/
def sVfsGetLastError {W : Type} (p : VFS W) (nErr : Int) (w : W) :
    (Int × String) × W :=
  p.mUnderlying.xGetLastError nErr w

/-- `sVfsCurrentTimeInt64`. -/
def sVfsCurrentTimeInt64 {W : Type} (p : VFS W) (w : W) : (Int × Int) × W :=
  p.mUnderlying.xCurrentTimeInt64 w

/-- `sVfsSetSystemCall`. -/
def sVfsSetSystemCall {W : Type} (p : VFS W) (zName : String)
    (pNewFunc : Int) (w : W) : Int × W :=
  p.mUnderlying.xSetSystemCall zName pNewFunc w

/-- `sVfsGetSystemCall`. -/
def sVfsGetSystemCall {W : Type} (p : VFS W) (zName : String) (w : W) :
    Int × W :=
  p.mUnderlying.xGetSystemCall zName w

/-- `sVfsNextSystemCall`. -/
def sVfsNextSystemCall {W : Type} (p : VFS W) (zName : String) (w : W) :
    Option String × W :=
  p.mUnderlying.xNextSystemCall zName w

/-!
A concrete cipher instance satisfying the capability contract of §6/§8 of the
design (round-trip key wrapping, wrong-key unwrap failure, invertible page
transform with failing inputs), used to instantiate theorems whose statements
assume that contract. -/

/-- A concrete `DataCrypt`: wrapping stores a length-tagged copy of the
wrapping key before the payload; the page transform prepends a page-number
tag. -/
def toyCrypt : DataCrypt where
  generated := [7, 7]
  wrap := fun k w => (w.length :: w) ++ k
  unwrap := fun c w =>
    if c.take (w.length + 1) = w.length :: w then some (c.drop (w.length + 1))
    else none
  encrypt := fun n inp _ => (n.natAbs + 1) :: inp
  decrypt := fun n inp _ =>
    match inp with
    | [] => none
    | t :: rest => if t = n.natAbs + 1 then some rest else none
  extra := 1

/-- The empty filesystem. -/
def emptyDisk : Disk := []

/-- A concrete engine state over `toyCrypt`, as left by a fresh construction
for database `"db"` under external key `[4, 2]`. -/
def sampleState : Crypto where
  mDataCrypt := toyCrypt
  mFileName := "db-keyfile"
  mKey := [7, 7]
  mWrappedKey := toyCrypt.wrap [7, 7] [4, 2]
  mFirstPage := []
  mPageBufferIn := []
  mPageBufferOut := []

theorem toyCrypt_unwrap_wrap (k w : List Nat) :
    toyCrypt.unwrap (toyCrypt.wrap k w) w = some k := by
  simp only [toyCrypt, List.cons_append, List.take_succ_cons,
    List.drop_succ_cons, List.take_left, List.drop_left]
  simp

theorem toyCrypt_unwrap_wrong (k w w' : List Nat) (h : w ≠ w') :
    toyCrypt.unwrap (toyCrypt.wrap k w) w' = none := by
  simp only [toyCrypt, List.cons_append]
  rw [if_neg]
  intro heq
  rw [List.take_succ_cons] at heq
  have h1 : w.length = w'.length ∧ (w ++ k).take w'.length = w' :=
    List.cons_eq_cons.mp heq
  apply h
  have h2 := h1.2
  rw [← h1.1, List.take_left] at h2
  exact h2

theorem diskLookup_store (d : Disk) (name : String) (content : List Nat) :
    diskLookup (diskStore d name content) name = some content := by
  simp [diskLookup, diskStore, List.find?]

/-- C1 counterexample: constructing a new engine (`exists == false`) for
database `"db"` on an empty filesystem leaves the filesystem without any
keyfile at `"db-keyfile"` when the constructor returns — nothing was
persisted. -/
theorem construct_new_no_keyfile_cx :
    diskLookup (Crypto.construct toyCrypt "db" [4, 2] false emptyDisk).2
      "db-keyfile" = none := rfl

/-- C1 (amended): constructing with `exists == false` generates a fresh data
key (the cipher's generated key), wraps it under the external key into the
wrapped-key field and succeeds, but writes nothing to disk; the keyfile is
only persisted by a later `rekey` or page-1 `encryptPage`. -/
theorem construct_new_wraps_key_no_persist (c : DataCrypt) (name : String)
    (fileKey : List Nat) (d : Disk) :
    (Crypto.construct c name fileKey false d).2 = d ∧
    ∃ st : Crypto,
      (Crypto.construct c name fileKey false d).1 = Except.ok st ∧
      st.mKey = c.generated ∧
      st.mWrappedKey = c.wrap c.generated fileKey ∧
      st.mFileName = name ++ "-keyfile" := by
  exact ⟨rfl, _, rfl, rfl, rfl, rfl⟩

/-- C2 (code bug): with an empty first-page cache `writeKeyFile` omits the
`firstPageSize` word entirely, while `readKeyFile` unconditionally demands it;
reading back the very file `writeKeyFile` just produced therefore fails with
"Failed to read page size" instead of restoring the fields. -/
theorem keyfile_roundtrip_empty_page_fails :
    (Crypto.readKeyFile sampleState
        (Crypto.writeKeyFile sampleState emptyDisk).2).1
      = Except.error "Failed to read page size" := by
  rfl

/-- C8: every VFS method-table entry of the shim other than `open` returns
exactly the underlying VFS's corresponding entry applied to the same
arguments, adding no effect of its own. -/
theorem vfs_shim_forwards_verbatim (W : Type) (p : VFS W)
    (zName zErrMsg zSymbol zFilename : String)
    (syncDir flags nOut nByte handle microseconds nErr pNewFunc : Int)
    (w : W) :
    sVfsDelete p zName syncDir w = p.mUnderlying.xDelete zName syncDir w ∧
    sVfsAccess p zName flags w = p.mUnderlying.xAccess zName flags w ∧
    sVfsFullPathname p zName nOut w
      = p.mUnderlying.xFullPathname zName nOut w ∧
    sVfsDlOpen p zFilename w = p.mUnderlying.xDlOpen zFilename w ∧
    sVfsDlError p nByte zErrMsg w = p.mUnderlying.xDlError nByte zErrMsg w ∧
    sVfsDlSym p handle zSymbol w = p.mUnderlying.xDlSym handle zSymbol w ∧
    sVfsDlClose p handle w = p.mUnderlying.xDlClose handle w ∧
    sVfsRandomness p nByte w = p.mUnderlying.xRandomness nByte w ∧
    sVfsSleep p microseconds w = p.mUnderlying.xSleep microseconds w ∧
    sVfsCurrentTime p w = p.mUnderlying.xCurrentTime w ∧
    sVfsGetLastError p nErr w = p.mUnderlying.xGetLastError nErr w ∧
    sVfsCurrentTimeInt64 p w = p.mUnderlying.xCurrentTimeInt64 w ∧
    sVfsSetSystemCall p zName pNewFunc w
      = p.mUnderlying.xSetSystemCall zName pNewFunc w ∧
    sVfsGetSystemCall p zName w = p.mUnderlying.xGetSystemCall zName w ∧
    sVfsNextSystemCall p zName w = p.mUnderlying.xNextSystemCall zName w := by
  exact ⟨rfl, rfl, rfl, rfl, rfl, rfl, rfl, rfl, rfl, rfl, rfl, rfl, rfl,
    rfl, rfl⟩

/-- C10: the keyfile contents `writeKeyFile` produces are a function of the
wrapped-key field and the first-page cache alone: two states agreeing on
`mWrappedKey` and `mFirstPage` yield byte-identical keyfiles regardless of
their raw data key or page buffers — the raw data key is never persisted. -/
theorem writeKeyFile_independent_of_mKey (st1 st2 : Crypto) (d : Disk)
    (hW : st1.mWrappedKey = st2.mWrappedKey)
    (hF : st1.mFirstPage = st2.mFirstPage) :
    diskLookup (Crypto.writeKeyFile st1 d).2 st1.mFileName
      = diskLookup (Crypto.writeKeyFile st2 d).2 st2.mFileName := by
  simp [Crypto.writeKeyFile, diskLookup_store, hW, hF]

/-- Witness for C10 at two concrete states differing only in the raw data
key. -/
theorem writeKeyFile_independent_of_mKey_witness :
    diskLookup (Crypto.writeKeyFile sampleState emptyDisk).2
        sampleState.mFileName
      = diskLookup
          (Crypto.writeKeyFile { sampleState with mKey := [9, 9] } emptyDisk).2
          (Crypto.mFileName { sampleState with mKey := [9, 9] }) :=
  writeKeyFile_independent_of_mKey sampleState
    { sampleState with mKey := [9, 9] } emptyDisk rfl rfl

/-- C3: `rekey(newKey, len)` leaves the data key `mKey` unchanged and replaces
the wrapped-key field by the wrap of that same data key under the new external
key — so, for any cipher meeting the wrap/unwrap capability contract,
unwrapping the new wrapped key under the new external key yields the data key,
unwrapping under any other (old) external key fails — and it rewrites the
keyfile on disk. -/
theorem rekey_rewraps_same_data_key (st : Crypto) (newKey oldKey : List Nat)
    (d : Disk)
    (hWU : ∀ k w, st.mDataCrypt.unwrap (st.mDataCrypt.wrap k w) w = some k)
    (hWrong : ∀ k w w', w ≠ w' →
      st.mDataCrypt.unwrap (st.mDataCrypt.wrap k w) w' = none)
    (hne : newKey ≠ oldKey) :
    (Crypto.rekey st newKey d).1.mKey = st.mKey ∧
    st.mDataCrypt.unwrap (Crypto.rekey st newKey d).1.mWrappedKey newKey
      = some st.mKey ∧
    st.mDataCrypt.unwrap (Crypto.rekey st newKey d).1.mWrappedKey oldKey
      = none ∧
    (Crypto.rekey st newKey d).2
      = diskStore d st.mFileName
          (serializeKeyFile (st.mDataCrypt.wrap st.mKey newKey)
            st.mFirstPage) := by
  exact ⟨rfl, hWU st.mKey newKey, hWrong st.mKey newKey oldKey hne, rfl⟩

/-- Witness for C3 on the concrete toy cipher: rekey from external key
`[4, 2]` to `[9]`. -/
theorem rekey_rewraps_same_data_key_witness :
    (Crypto.rekey sampleState [9] emptyDisk).1.mKey = sampleState.mKey ∧
    toyCrypt.unwrap (Crypto.rekey sampleState [9] emptyDisk).1.mWrappedKey [9]
      = some sampleState.mKey ∧
    toyCrypt.unwrap (Crypto.rekey sampleState [9] emptyDisk).1.mWrappedKey
        [4, 2] = none ∧
    (Crypto.rekey sampleState [9] emptyDisk).2
      = diskStore emptyDisk sampleState.mFileName
          (serializeKeyFile (toyCrypt.wrap sampleState.mKey [9])
            sampleState.mFirstPage) :=
  rekey_rewraps_same_data_key sampleState [9] [4, 2] emptyDisk
    (fun k w => toyCrypt_unwrap_wrap k w)
    (fun k w w' h => toyCrypt_unwrap_wrong k w w' h)
    (by decide)

/-- C4: the raw data key `mKey` is left exactly as it was by every
post-construction operation — `rekey`, `encryptPage`, `decryptPage`,
`decryptFirstPageCache`, `resizePageBuffers`, `writeKeyFile` and
`readKeyFile` — for every starting state and every argument. -/
theorem mKey_invariant_post_construction (st : Crypto) (d : Disk)
    (newKey page : List Nat) (pio : Option (List Nat))
    (pageSize size : Nat) (pageNo : Int) :
    (Crypto.rekey st newKey d).1.mKey = st.mKey ∧
    (Crypto.encryptPage st page pageSize pageNo d).2.1.mKey = st.mKey ∧
    (Crypto.decryptPage st pio pageSize pageNo).2.2.mKey = st.mKey ∧
    (Crypto.decryptFirstPageCache st).2.mKey = st.mKey ∧
    (Crypto.resizePageBuffers st size).mKey = st.mKey ∧
    (Crypto.writeKeyFile st d).1.mKey = st.mKey ∧
    (Crypto.readKeyFile st d).2.mKey = st.mKey := by
  refine ⟨rfl, ?_, ?_, ?_, rfl, rfl, ?_⟩
  · unfold Crypto.encryptPage
    split <;> rfl
  · unfold Crypto.decryptPage
    cases pio <;> dsimp only <;> (split <;> rfl)
  · simp only [Crypto.decryptFirstPageCache, Crypto.resizePageBuffers]
    split
    · split <;> rfl
    · rfl
  · simp only [Crypto.readKeyFile]
    repeat' split
    all_goals rfl

/-- C5: encrypting page number 1 stores the resulting ciphertext in the
first-page cache, synchronously rewrites the keyfile within the same call
(with the new cache and the current wrapped key), and returns the engine's
output buffer holding exactly the ciphertext of the page, provided the page
has `pageSize` bytes and the reusable input buffer carries no longer stale
content. -/
theorem encryptPage_first_page_caches_and_persists (st : Crypto) (d : Disk)
    (P : List Nat) (S : Nat) (hP : P.length = S)
    (hbuf : st.mPageBufferIn.length ≤ S) :
    (Crypto.encryptPage st P S 1 d).1 = st.mDataCrypt.encrypt 1 P st.mKey ∧
    (Crypto.encryptPage st P S 1 d).2.1.mFirstPage
      = st.mDataCrypt.encrypt 1 P st.mKey ∧
    (Crypto.encryptPage st P S 1 d).2.1.mPageBufferOut
      = st.mDataCrypt.encrypt 1 P st.mKey ∧
    (Crypto.encryptPage st P S 1 d).2.2
      = diskStore d st.mFileName
          (serializeKeyFile st.mWrappedKey
            (st.mDataCrypt.encrypt 1 P st.mKey)) := by
  have hw : listWrite0 (P.take S) st.mPageBufferIn = P := by
    unfold listWrite0
    rw [← hP, List.take_length, List.drop_eq_nil_of_le, List.append_nil]
    omega
  refine ⟨?_, ?_, ?_, ?_⟩ <;>
    simp [Crypto.encryptPage, Crypto.writeKeyFile, hw]

/-- Witness for C5: page `[5]` of size 1 on the fresh sample state. -/
theorem encryptPage_first_page_caches_and_persists_witness :
    (Crypto.encryptPage sampleState [5] 1 1 emptyDisk).1
      = toyCrypt.encrypt 1 [5] sampleState.mKey ∧
    (Crypto.encryptPage sampleState [5] 1 1 emptyDisk).2.1.mFirstPage
      = toyCrypt.encrypt 1 [5] sampleState.mKey ∧
    (Crypto.encryptPage sampleState [5] 1 1 emptyDisk).2.1.mPageBufferOut
      = toyCrypt.encrypt 1 [5] sampleState.mKey ∧
    (Crypto.encryptPage sampleState [5] 1 1 emptyDisk).2.2
      = diskStore emptyDisk sampleState.mFileName
          (serializeKeyFile sampleState.mWrappedKey
            (toyCrypt.encrypt 1 [5] sampleState.mKey)) :=
  encryptPage_first_page_caches_and_persists sampleState emptyDisk [5] 1
    (by decide) (by decide)

/-- C6: on an engine whose first-page cache is empty,
`decryptFirstPageCache()` succeeds, resizes both page buffers to
`max(0, 512) = 512` bytes, and leaves the output buffer (and input buffer)
entirely zero-filled. -/
theorem decryptFirstPageCache_fresh_zero (st : Crypto)
    (h : st.mFirstPage = []) :
    (Crypto.decryptFirstPageCache st).1 = Except.ok () ∧
    (Crypto.decryptFirstPageCache st).2.mPageBufferOut
      = List.replicate 512 0 ∧
    (Crypto.decryptFirstPageCache st).2.mPageBufferIn
      = List.replicate 512 0 := by
  obtain ⟨dc, fn, k, wk, fp, bin, bout⟩ := st
  dsimp only at h
  subst h
  exact ⟨rfl, rfl, rfl⟩

/-- Witness for C6 at the fresh sample state (never-written cache). -/
theorem decryptFirstPageCache_fresh_zero_witness :
    (Crypto.decryptFirstPageCache sampleState).1 = Except.ok () ∧
    (Crypto.decryptFirstPageCache sampleState).2.mPageBufferOut
      = List.replicate 512 0 ∧
    (Crypto.decryptFirstPageCache sampleState).2.mPageBufferIn
      = List.replicate 512 0 :=
  decryptFirstPageCache_fresh_zero sampleState rfl

/-- C7: `decryptPage` is atomic with respect to the caller's buffer: when the
cipher's decrypt step fails its integrity check, the call reports the error
and the caller's page bytes are exactly what they were before the call. -/
theorem decryptPage_failure_preserves_buffer (st : Crypto) (b : List Nat)
    (pageSize : Nat) (pageNo : Int)
    (hfail : st.mDataCrypt.decrypt pageNo
        (listWrite0 (b.take pageSize) st.mPageBufferIn) st.mKey = none) :
    (Crypto.decryptPage st (some b) pageSize pageNo).2.1 = some b ∧
    (Crypto.decryptPage st (some b) pageSize pageNo).1
      = Except.error "decrypt authentication failure" := by
  refine ⟨?_, ?_⟩ <;> simp [Crypto.decryptPage, hfail]

/-- Witness for C7: the toy cipher rejects page bytes `[5]` at page number 2
(wrong tag), and the caller's buffer survives unchanged. -/
theorem decryptPage_failure_preserves_buffer_witness :
    (Crypto.decryptPage sampleState (some [5]) 1 2).2.1 = some [5] ∧
    (Crypto.decryptPage sampleState (some [5]) 1 2).1
      = Except.error "decrypt authentication failure" :=
  decryptPage_failure_preserves_buffer sampleState [5] 1 2 rfl

/-- C9: encrypting any page other than page 1 mutates only the two reusable
page buffers: the first-page cache, the wrapped-key field, the keyfile path,
the data key, the cipher and the on-disk keyfile are all unchanged. -/
theorem encryptPage_other_page_frame (st : Crypto) (d : Disk)
    (page : List Nat) (pageSize : Nat) (pageNo : Int) (hN : pageNo ≠ 1) :
    (Crypto.encryptPage st page pageSize pageNo d).2.1.mFirstPage
      = st.mFirstPage ∧
    (Crypto.encryptPage st page pageSize pageNo d).2.1.mWrappedKey
      = st.mWrappedKey ∧
    (Crypto.encryptPage st page pageSize pageNo d).2.1.mFileName
      = st.mFileName ∧
    (Crypto.encryptPage st page pageSize pageNo d).2.1.mKey = st.mKey ∧
    (Crypto.encryptPage st page pageSize pageNo d).2.1.mDataCrypt
      = st.mDataCrypt ∧
    (Crypto.encryptPage st page pageSize pageNo d).2.2 = d := by
  refine ⟨?_, ?_, ?_, ?_, ?_, ?_⟩ <;> simp [Crypto.encryptPage, hN]

/-- Witness for C9 at page number 2 on the sample state. -/
theorem encryptPage_other_page_frame_witness :
    (Crypto.encryptPage sampleState [5] 1 2 emptyDisk).2.1.mFirstPage
      = sampleState.mFirstPage ∧
    (Crypto.encryptPage sampleState [5] 1 2 emptyDisk).2.1.mWrappedKey
      = sampleState.mWrappedKey ∧
    (Crypto.encryptPage sampleState [5] 1 2 emptyDisk).2.1.mFileName
      = sampleState.mFileName ∧
    (Crypto.encryptPage sampleState [5] 1 2 emptyDisk).2.1.mKey
      = sampleState.mKey ∧
    (Crypto.encryptPage sampleState [5] 1 2 emptyDisk).2.1.mDataCrypt
      = sampleState.mDataCrypt ∧
    (Crypto.encryptPage sampleState [5] 1 2 emptyDisk).2.2 = emptyDisk :=
  encryptPage_other_page_frame sampleState emptyDisk [5] 1 2 (by decide)

end CryptoSQLite
